import Mathlib

/-!
Shallow embedding of the RelayCtlr firmware core (src/src/main.cpp,
src/src/discovery.cpp, src/src/main_config.h): the multi-protocol packet
ingestion and relay-mapping engine (Art-Net, E1.31/sACN, DDP), the shared
liveness tracker, and the discovery reply's output descriptor.

Buffers are modelled as `List Nat`; every read of a `uint8_t` buffer cell
goes through `byteAt`, which truncates to a byte.  Machine integers wrap
explicitly: the frame counter is a byte (`% 256`), DDP's channel index is
a `uint32_t` (`% 2^32`), E1.31's channel is a `uint16_t` (`% 65536`), and
`millis()` subtraction is 32-bit unsigned (`u32sub`).
-/

-- ---------- PROTOCOL CONSTANTS (main.cpp lines 21-41) ----------

def ARTNET_SUBNET : Nat := 0
def ARTNET_UNIVERSE : Nat := 41
def ARTNET_ARTDMX : Nat := 0x5000
def ARTNET_START_ADDRESS : Nat := 18
def DDP_HEADER_LEN : Nat := 10
def ETHERNET_BUFFER_MAX : Nat := 640
def NUM_RELAYS : Nat := 8

/-- main_config.h line 4 declares a different relay count (`constexpr
uint8_t NUM_RELAYS = 16`) than main.cpp's `#define NUM_RELAYS 8`;
discovery.cpp includes main_config.h, so its replies use this value. -/
def mainConfigNumRelays : Nat := 16

-- ---------- DATA MODEL ----------

/-- `DeviceConfig` (main.cpp lines 54-60): universe/startChan plus the
per-relay GPIO assignments (the `relays[NUM_RELAYS].gpio` array). -/
structure DeviceConfig where
  universeCfg : Nat
  startChan : Nat
  gpios : List Nat
deriving DecidableEq

/-- An E1.31 packet as consumed from the ESPAsyncE131 queue
(`property_value_count`, `property_values`), main.cpp lines 360-378. -/
structure E131Packet where
  property_value_count : Nat
  property_values : List Nat
deriving DecidableEq

/-- Reading one cell of a `uint8_t` buffer: out-of-range reads return the
stale-content default 0, and every value is a byte. -/
def byteAt (buf : List Nat) (i : Nat) : Nat := buf.getD i 0 % 256

-- ---------- RELAY HELPERS (main.cpp lines 84-92) ----------

/-- `setRelay` (main.cpp lines 84-92): index bound check, unmapped-gpio
(0xFF or 0) skip, then drive the output and record the new state. -/
def setRelay (cfg : DeviceConfig) (st : List Bool) (index : Nat) (onVal : Bool) : List Bool :=
  if NUM_RELAYS ≤ index then st
  else
    let gpio := cfg.gpios.getD index 0
    if gpio = 0xFF ∨ gpio = 0 then st
    else st.set index onVal

-- ---------- ArtNet (main.cpp lines 273-296) ----------

/-- The signature test of `artNetOpCode` (main.cpp line 275):
`String((char*)pbuff)` equals `Art-Net` exactly when bytes 0..6 spell
the ASCII signature and byte 7 is NUL. -/
def artnetSigOk (buf : List Nat) : Bool :=
  decide (byteAt buf 0 = 65 ∧ byteAt buf 1 = 114 ∧ byteAt buf 2 = 116 ∧
          byteAt buf 3 = 45 ∧ byteAt buf 4 = 78 ∧ byteAt buf 5 = 101 ∧
          byteAt buf 6 = 116 ∧ byteAt buf 7 = 0)

/-- `artNetOpCode` (main.cpp lines 273-281): signature then
protocol-version check (byte 11 ≥ 14), then the little-endian opcode
`pbuff[9] * 256 + pbuff[8]`; every failure returns 0. -/
def artNetOpCode (buf : List Nat) : Nat :=
  if artnetSigOk buf = true then
    if 14 ≤ byteAt buf 11 then byteAt buf 9 * 256 + byteAt buf 8 else 0
  else 0

/-- The threshold of the Art-Net relay loop (main.cpp line 290):
`bool on = (val > 127)`. -/
def artnetThreshold (val : Nat) : Bool := decide (val > 127)

/-- `artDMXReceived` (main.cpp lines 284-296).  The first component is
the relay state after the call; the second logs the buffer indices the
loop reads channel bytes from.  The guards are the source's:
`(pbuff[14] & 0xF) == ARTNET_UNIVERSE` and
`(pbuff[14] >> 8) == ARTNET_SUBNET`. -/
def artDMXReceived (cfg : DeviceConfig) (buf : List Nat) (st : List Bool) :
    List Bool × List Nat :=
  if byteAt buf 14 &&& 0xF = ARTNET_UNIVERSE then
    if byteAt buf 14 >>> 8 = ARTNET_SUBNET then
      (List.range NUM_RELAYS).foldl
        (fun acc b =>
          (setRelay cfg acc.1 b (artnetThreshold (byteAt buf (ARTNET_START_ADDRESS + b))),
           acc.2 ++ [ARTNET_START_ADDRESS + b]))
        (st, [])
    else (st, [])
  else (st, [])

-- ---------- DDP (main.cpp lines 300-329) ----------

/-- The threshold of the DDP relay loop (main.cpp line 326). -/
def ddpThreshold (v : Nat) : Bool := decide (v > 127)

/-- The DDP relay loop (main.cpp lines 321-328), with `fuel` relays left
to process and `i` the current relay index; `chanIndex = offset + i` in
`uint32_t` arithmetic, and the loop breaks once `chanIndex ≥ dataLen`.
The second accumulator component logs the buffer indices read. -/
def ddpLoop (cfg : DeviceConfig) (buf : List Nat) (offset dataLen : Nat) :
    Nat → Nat → List Bool × List Nat → List Bool × List Nat
  | 0, _, acc => acc
  | fuel + 1, i, acc =>
    let chanIndex := (offset + i) % 4294967296
    if dataLen ≤ chanIndex then acc
    else
      ddpLoop cfg buf offset dataLen fuel (i + 1)
        (setRelay cfg acc.1 i (ddpThreshold (byteAt buf (DDP_HEADER_LEN + chanIndex))),
         acc.2 ++ [DDP_HEADER_LEN + chanIndex])

/-- `ddpReceived` (main.cpp lines 300-329): header-length rejection,
32-bit big-endian `offset` from bytes 2-5, 16-bit big-endian `dataLen`
from bytes 6-7, clamp of `dataLen` to the received length, then the
relay loop.  The second component logs the payload indices read. -/
def ddpReceived (cfg : DeviceConfig) (buf : List Nat) (len : Nat) (st : List Bool) :
    List Bool × List Nat :=
  if len ≤ DDP_HEADER_LEN then (st, [])
  else
    let offset := byteAt buf 2 <<< 24 ||| byteAt buf 3 <<< 16 |||
                  byteAt buf 4 <<< 8 ||| byteAt buf 5
    let dataLen0 := byteAt buf 6 <<< 8 ||| byteAt buf 7
    let dataLen := if len < DDP_HEADER_LEN + dataLen0 then len - DDP_HEADER_LEN else dataLen0
    ddpLoop cfg buf offset dataLen NUM_RELAYS 0 (st, [])

-- ---------- E1.31 (main.cpp lines 360-383) ----------

/-- The threshold of the E1.31 relay loop (main.cpp line 376). -/
def e131Threshold (v : Nat) : Bool := decide (v > 127)

/-- The E1.31 relay loop (main.cpp lines 368-378): `uint16_t chan =
cfg.startChan + i`, break once `chan ≥ property_value_count`, else read
`property_values[chan]` and drive relay `i`. -/
def e131Loop (cfg : DeviceConfig) (pkt : E131Packet) :
    Nat → Nat → List Bool → List Bool
  | 0, _, st => st
  | fuel + 1, i, st =>
    let chan := (cfg.startChan + i) % 65536
    if pkt.property_value_count ≤ chan then st
    else
      e131Loop cfg pkt fuel (i + 1)
        (setRelay cfg st i (e131Threshold (byteAt pkt.property_values chan)))

/-- One E1.31 packet applied to the relay state (main.cpp lines 368-378). -/
def e131Apply (cfg : DeviceConfig) (pkt : E131Packet) (st : List Bool) : List Bool :=
  e131Loop cfg pkt NUM_RELAYS 0 st

-- ---------- LIVENESS / TICK (main.cpp lines 332-399) ----------

/-- 32-bit unsigned subtraction, as in `millis() - currentDelay`
(main.cpp line 338) on `uint32_t` values. -/
def u32sub (a b : Nat) : Nat := (a + (4294967296 - b % 4294967296)) % 4294967296

/-- The mutable globals `handlePackets` works on: the relay state array,
the byte counters `currentcounter` / `previouscounter`, the millis
timestamp `currentDelay`, and the status LED level. -/
structure SysState where
  cfg : DeviceConfig
  relayState : List Bool
  currentcounter : Nat
  previouscounter : Nat
  currentDelay : Nat
  statusLed : Bool
deriving DecidableEq

/-- What one tick of `handlePackets` can observe: the current `millis()`
value, at most one Art-Net datagram (`aUDP.parsePacket`), the pending
ESPAsyncE131 queue, and at most one DDP datagram (`ddpUDP.parsePacket`). -/
structure TickInput where
  now : Nat
  artnet : Option (List Nat)
  e131q : List E131Packet
  ddp : Option (List Nat)
deriving DecidableEq

/-- The timeout logic at the top of `handlePackets` (main.cpp lines
333-341): resynchronise `previouscounter`/`currentDelay` on an observed
counter change, then clear the status LED once more than 30000 ms have
passed since `currentDelay`. -/
def timeoutStep (now : Nat) (s : SysState) : SysState :=
  let s1 := if s.currentcounter ≠ s.previouscounter
            then { s with currentDelay := now, previouscounter := s.currentcounter }
            else s
  if 30000 < u32sub now s1.currentDelay
  then { s1 with statusLed := false }
  else s1

/-- The body of the E1.31 drain loop (main.cpp lines 360-383): apply
the pulled packet to the relays, bump the byte counter, assert the LED. -/
def e131DrainStep (s : SysState) (pkt : E131Packet) : SysState :=
  { s with relayState := e131Apply s.cfg pkt s.relayState,
           currentcounter := (s.currentcounter + 1) % 256,
           statusLed := true }

/-- `handlePackets` (main.cpp lines 332-399) as a state transformer:
timeout logic, then Art-Net (early return for any waiting datagram),
else the E1.31 drain loop, then one DDP poll.  The counter is a byte and
wraps; the LED is asserted after each processed Art-Net ArtDMX opcode,
each drained E1.31 packet, and each nonempty DDP datagram. -/
def handlePacketsStep (inp : TickInput) (s : SysState) : SysState :=
  let s2 := timeoutStep inp.now s
  match inp.artnet with
  | some buf =>
      if artNetOpCode buf = ARTNET_ARTDMX then
        { s2 with relayState := (artDMXReceived s2.cfg buf s2.relayState).1,
                  currentcounter := (s2.currentcounter + 1) % 256,
                  statusLed := true }
      else s2
  | none =>
      let s3 := inp.e131q.foldl e131DrainStep s2
      match inp.ddp with
      | some buf =>
          { s3 with relayState := (ddpReceived s3.cfg buf (min buf.length ETHERNET_BUFFER_MAX) s3.relayState).1,
                    currentcounter := (s3.currentcounter + 1) % 256,
                    statusLed := true }
      | none => s3

/-- A tick in which no socket has data and the E1.31 queue is empty. -/
def emptyTick (t : Nat) : TickInput := ⟨t, none, [], none⟩

/-- Iterated ticks of `handlePackets`. -/
def runTicks (inputs : List TickInput) (s : SysState) : SysState :=
  inputs.foldl (fun s i => handlePacketsStep i s) s

-- ---------- DISCOVERY (discovery.cpp lines 22-62) ----------

/-- The single entry of the `outputs` array in the discovery reply
(discovery.cpp lines 44-51). -/
structure DiscoveryOutput where
  channel_start : Nat
  channel_count : Nat
  universeField : Nat
  universe_count : Nat
deriving DecidableEq

/-- `sendDiscoveryReply`'s output descriptor (discovery.cpp lines
44-51); discovery.cpp includes main_config.h, so `channel_count` is
main_config.h's `NUM_RELAYS` (16), not main.cpp's. -/
def sendDiscoveryReply (cfg : DeviceConfig) : DiscoveryOutput :=
  ⟨cfg.startChan, mainConfigNumRelays, cfg.universeCfg, 1⟩

/-- The default configuration installed by `loadCfg` (main.cpp lines
102-114) before NVS overrides. -/
def defaultCfg : DeviceConfig := ⟨41, 1, [26, 25, 27, 14, 33, 32, 13, 12]⟩

-- ---------- SHARED LEMMAS ----------

/-- The guard `(pbuff[14] & 0xF) == ARTNET_UNIVERSE` of `artDMXReceived`
compares a 4-bit value against 41, so it never holds: the function
returns the relay state unchanged and reads no channel byte. -/
lemma artDMX_apply_eq (cfg : DeviceConfig) (buf : List Nat) (st : List Bool) :
    (artDMXReceived cfg buf st).1 = st ∧ (artDMXReceived cfg buf st).2 = [] := by
  have hle : byteAt buf 14 &&& 0xF ≤ 0xF := Nat.and_le_right
  have h : ¬ (byteAt buf 14 &&& 0xF = ARTNET_UNIVERSE) := by
    unfold ARTNET_UNIVERSE
    omega
  unfold artDMXReceived
  simp [h]

lemma timeoutStep_relayState (now : Nat) (s : SysState) :
    (timeoutStep now s).relayState = s.relayState := by
  simp only [timeoutStep]
  split <;> split <;> rfl

lemma timeoutStep_currentcounter (now : Nat) (s : SysState) :
    (timeoutStep now s).currentcounter = s.currentcounter := by
  simp only [timeoutStep]
  split <;> split <;> rfl

lemma timeoutStep_cfg (now : Nat) (s : SysState) :
    (timeoutStep now s).cfg = s.cfg := by
  simp only [timeoutStep]
  split <;> split <;> rfl

/-- A DDP datagram no longer than the 10-byte header is rejected before
any payload byte is read (main.cpp line 301). -/
lemma ddpReceived_short (cfg : DeviceConfig) (buf : List Nat) (len : Nat)
    (st : List Bool) (h : len ≤ DDP_HEADER_LEN) :
    ddpReceived cfg buf len st = (st, []) := by
  unfold ddpReceived
  simp [h]

-- ---------- CLAIM C1 ----------

/-- A well-formed ArtDMX datagram whose subnet/universe byte (offset 14)
is 0x09: low nibble 9 = 41 mod 16 (the configured universe mod 16),
high nibble 0 (the configured subnet).  Channel byte 200 at offset 18
commands relay 0 on under the threshold. -/
def c1Buf : List Nat :=
  [65, 114, 116, 45, 78, 101, 116, 0,
   0x00, 0x50, 0, 14, 0, 0, 0x09, 0, 0, 8,
   200, 0, 127, 128, 1, 2, 3, 4]

/-- Boot-time state for the C1 evaluation: default config, all relays
off, counters zero. -/
def c1State0 : SysState := ⟨defaultCfg, List.replicate NUM_RELAYS false, 0, 0, 0, false⟩

/-- Claim C1: the spec says an ArtDMX frame whose subnet/universe byte
matches the configuration (low nibble = 41 mod 16 = 9, subnet 0) drives
the relays from the channel bytes at offset 18.  The code instead
compares the 4-bit low nibble against the full universe value 41, which
can never match: this accepted, configuration-matching packet (channel
byte 200 commanding relay 0 on) is counted but leaves every relay
unchanged. -/
theorem artnet_universe_match_ignored :
    artNetOpCode c1Buf = ARTNET_ARTDMX ∧
    byteAt c1Buf 14 &&& 0xF = ARTNET_UNIVERSE % 16 ∧
    byteAt c1Buf 14 >>> 4 = ARTNET_SUBNET ∧
    byteAt c1Buf 18 = 200 ∧
    (handlePacketsStep ⟨5, some c1Buf, [], none⟩ c1State0).currentcounter = 1 ∧
    (handlePacketsStep ⟨5, some c1Buf, [], none⟩ c1State0).relayState =
      List.replicate NUM_RELAYS false := by
  decide

-- ---------- CLAIM C2 ----------

/-- Claim C2: for every accepted ArtDMX packet, every buffer index from
which the relay loop takes a channel value lies below the received
length — and in fact `artDMXReceived` takes no channel value from the
buffer at all, because its universe guard (see C1) rejects every frame,
so the relay state is returned unchanged. -/
theorem artnet_channel_reads_within_length :
    ∀ (cfg : DeviceConfig) (buf : List Nat) (st : List Bool) (len : Nat),
      artNetOpCode buf = ARTNET_ARTDMX →
      (∀ idx ∈ (artDMXReceived cfg buf st).2, idx < len) ∧
      (artDMXReceived cfg buf st).1 = st := by
  intro cfg buf st len _
  obtain ⟨h1, h2⟩ := artDMX_apply_eq cfg buf st
  refine ⟨?_, h1⟩
  intro idx hidx
  rw [h2] at hidx
  simp at hidx

/-- Witness for C2 at a concrete accepted ArtDMX packet and a received
length of 10 bytes. -/
theorem artnet_channel_reads_within_length_witness :
    artNetOpCode c1Buf = ARTNET_ARTDMX ∧
    ((∀ idx ∈ (artDMXReceived defaultCfg c1Buf (List.replicate NUM_RELAYS false)).2,
        idx < 10) ∧
     (artDMXReceived defaultCfg c1Buf (List.replicate NUM_RELAYS false)).1 =
       List.replicate NUM_RELAYS false) :=
  ⟨by decide,
   artnet_channel_reads_within_length defaultCfg c1Buf
     (List.replicate NUM_RELAYS false) 10 (by decide)⟩

-- ---------- CLAIM C3 ----------

/-- A well-formed ArtDMX datagram whose subnet/universe byte (offset 14)
is 0x0A: its low nibble 10 differs from 41 mod 16 = 9, so the frame is
universe-filtered ("well-formed but filtered"). -/
def c3ArtBuf : List Nat :=
  [65, 114, 116, 45, 78, 101, 116, 0,
   0x00, 0x50, 0, 14, 0, 0, 0x0A, 0, 0, 8,
   200, 0, 0, 0, 0, 0, 0, 0]

/-- Boot-time state for the C3 evaluation. -/
def c3State0 : SysState := ⟨defaultCfg, List.replicate NUM_RELAYS false, 0, 0, 0, false⟩

/-- Claim C3 counterexample: a malformed DDP datagram (1 byte, no
payload past the 10-byte header) and a universe-filtered ArtDMX
datagram each increment the frame counter and assert the activity
indicator, contradicting the claim that they do neither. -/
theorem filtered_and_malformed_still_count :
    c3State0.currentcounter = 0 ∧ c3State0.statusLed = false ∧
    (handlePacketsStep ⟨5, none, [], some [0]⟩ c3State0).currentcounter = 1 ∧
    (handlePacketsStep ⟨5, none, [], some [0]⟩ c3State0).statusLed = true ∧
    (handlePacketsStep ⟨5, some c3ArtBuf, [], none⟩ c3State0).currentcounter = 1 ∧
    (handlePacketsStep ⟨5, some c3ArtBuf, [], none⟩ c3State0).statusLed = true := by
  decide

/-- Claim C3 (amended): a malformed DDP packet (length at most the
10-byte header) and a well-formed ArtDMX packet (all of which the code
universe-filters) change no relay state, but each DOES increment the
byte frame counter and assert the activity indicator. -/
theorem malformed_ddp_filtered_artnet_effects
    (s : SysState) (t : Nat) (buf abuf : List Nat) :
    (buf.length ≤ DDP_HEADER_LEN →
      (handlePacketsStep ⟨t, none, [], some buf⟩ s).relayState = s.relayState ∧
      (handlePacketsStep ⟨t, none, [], some buf⟩ s).currentcounter =
        (s.currentcounter + 1) % 256 ∧
      (handlePacketsStep ⟨t, none, [], some buf⟩ s).statusLed = true) ∧
    (artNetOpCode abuf = ARTNET_ARTDMX →
      (handlePacketsStep ⟨t, some abuf, [], none⟩ s).relayState = s.relayState ∧
      (handlePacketsStep ⟨t, some abuf, [], none⟩ s).currentcounter =
        (s.currentcounter + 1) % 256 ∧
      (handlePacketsStep ⟨t, some abuf, [], none⟩ s).statusLed = true) := by
  constructor
  · intro h
    have hmin : min buf.length ETHERNET_BUFFER_MAX ≤ DDP_HEADER_LEN :=
      le_trans (min_le_left _ _) h
    simp only [handlePacketsStep, List.foldl_nil]
    rw [ddpReceived_short _ _ _ _ hmin]
    exact ⟨timeoutStep_relayState t s, by rw [timeoutStep_currentcounter], trivial⟩
  · intro h
    simp only [handlePacketsStep, h, if_pos]
    refine ⟨?_, by rw [timeoutStep_currentcounter], trivial⟩
    rw [(artDMX_apply_eq _ abuf _).1]
    exact timeoutStep_relayState t s

/-- Witness for the amended C3 at a 1-byte DDP datagram and the
filtered ArtDMX datagram `c3ArtBuf`. -/
theorem malformed_ddp_filtered_artnet_effects_witness :
    (([0] : List Nat).length ≤ DDP_HEADER_LEN ∧ artNetOpCode c3ArtBuf = ARTNET_ARTDMX) ∧
    ((handlePacketsStep ⟨5, none, [], some [0]⟩ c3State0).relayState = c3State0.relayState ∧
     (handlePacketsStep ⟨5, none, [], some [0]⟩ c3State0).currentcounter =
       (c3State0.currentcounter + 1) % 256 ∧
     (handlePacketsStep ⟨5, none, [], some [0]⟩ c3State0).statusLed = true) ∧
    ((handlePacketsStep ⟨5, some c3ArtBuf, [], none⟩ c3State0).relayState = c3State0.relayState ∧
     (handlePacketsStep ⟨5, some c3ArtBuf, [], none⟩ c3State0).currentcounter =
       (c3State0.currentcounter + 1) % 256 ∧
     (handlePacketsStep ⟨5, some c3ArtBuf, [], none⟩ c3State0).statusLed = true) :=
  ⟨⟨by decide, by decide⟩,
   (malformed_ddp_filtered_artnet_effects c3State0 5 [0] c3ArtBuf).1 (by decide),
   (malformed_ddp_filtered_artnet_effects c3State0 5 [0] c3ArtBuf).2 (by decide)⟩

-- ---------- CLAIM C4 ----------

/-- Claim C4: the spec says the discovery reply's channel_count equals
the NUM_RELAYS used by setRelay and the protocol handlers.  In the code
discovery.cpp includes main_config.h, whose NUM_RELAYS is 16, while
main.cpp's relay engine uses its own NUM_RELAYS of 8: every discovery
reply advertises a channel_count different from the relay count the
engine drives. -/
theorem discovery_channel_count_mismatch :
    ∀ cfg : DeviceConfig,
      (sendDiscoveryReply cfg).channel_count = mainConfigNumRelays ∧
      mainConfigNumRelays = 16 ∧ NUM_RELAYS = 8 ∧
      (sendDiscoveryReply cfg).channel_count ≠ NUM_RELAYS := by
  intro cfg
  refine ⟨rfl, rfl, rfl, ?_⟩
  show mainConfigNumRelays ≠ NUM_RELAYS
  decide

-- ---------- CLAIM C5 ----------

/-- Every buffer index the DDP relay loop reads stays below `len`, as
long as the clamped `dataLen` satisfies `DDP_HEADER_LEN + dataLen ≤ len`. -/
lemma ddpLoop_reads_bound (cfg : DeviceConfig) (buf : List Nat)
    (offset dataLen len : Nat) (hlen : DDP_HEADER_LEN + dataLen ≤ len) :
    ∀ (fuel i : Nat) (st : List Bool) (reads : List Nat),
      (∀ x ∈ reads, x < len) →
      ∀ x ∈ (ddpLoop cfg buf offset dataLen fuel i (st, reads)).2, x < len := by
  intro fuel
  induction fuel with
  | zero =>
    intro i st reads hr x hx
    simp only [ddpLoop] at hx
    exact hr x hx
  | succ n ih =>
    intro i st reads hr x hx
    simp only [ddpLoop] at hx
    by_cases h : dataLen ≤ (offset + i) % 4294967296
    · rw [if_pos h] at hx
      exact hr x hx
    · rw [if_neg h] at hx
      refine ih (i + 1) _ _ ?_ x hx
      intro y hy
      rcases List.mem_append.1 hy with hy' | hy'
      · exact hr y hy'
      · have hlt : (offset + i) % 4294967296 < dataLen := Nat.lt_of_not_le h
        have hy2 : y = DDP_HEADER_LEN + (offset + i) % 4294967296 := by
          simpa using hy'
        omega

/-- Claim C5: a DDP payload no longer than the 10-byte header changes
no relay state and reads no payload byte, and for every DDP packet the
declared 16-bit dataLen is clamped to the received length, so every
buffer index the decoder reads - even with a large 32-bit offset - lies
strictly below the received packet length. -/
theorem ddp_length_guard_and_clamp :
    ∀ (cfg : DeviceConfig) (buf : List Nat) (len : Nat) (st : List Bool),
      (len ≤ DDP_HEADER_LEN → ddpReceived cfg buf len st = (st, [])) ∧
      (∀ idx ∈ (ddpReceived cfg buf len st).2, idx < len) := by
  intro cfg buf len st
  refine ⟨fun h => ddpReceived_short cfg buf len st h, ?_⟩
  intro idx hidx
  by_cases h : len ≤ DDP_HEADER_LEN
  · rw [ddpReceived_short cfg buf len st h] at hidx
    simp at hidx
  · simp only [ddpReceived, if_neg h] at hidx
    refine ddpLoop_reads_bound cfg buf _ _ len ?_ NUM_RELAYS 0 st []
      (by intro x hx; simp at hx) idx hidx
    split
    · omega
    · omega

/-- A DDP datagram of 15 bytes whose header declares dataLen = 500
(bytes 6-7 = 0x01F4) with offset 0; the decoder clamps to the 5 actual
payload bytes. -/
def c5Buf : List Nat := [0x41, 0, 0, 0, 0, 0, 1, 244, 0, 0, 10, 20, 130, 131, 5]

/-- Witness for C5: the 15-byte datagram with an oversized declared
dataLen reads only indices below 15, and a 5-byte datagram is a no-op. -/
theorem ddp_length_guard_and_clamp_witness :
    ((5 : Nat) ≤ DDP_HEADER_LEN ∧
     ddpReceived defaultCfg c5Buf 5 (List.replicate NUM_RELAYS false) =
       (List.replicate NUM_RELAYS false, [])) ∧
    (∀ idx ∈ (ddpReceived defaultCfg c5Buf 15 (List.replicate NUM_RELAYS false)).2,
      idx < 15) :=
  ⟨⟨by decide,
    (ddp_length_guard_and_clamp defaultCfg c5Buf 5 (List.replicate NUM_RELAYS false)).1
      (by decide)⟩,
   (ddp_length_guard_and_clamp defaultCfg c5Buf 15 (List.replicate NUM_RELAYS false)).2⟩

-- ---------- CLAIM C6 ----------

/-- Claim C6: all three protocol paths map a channel byte to a relay
command through the same pure threshold v > 127 (127 commands off, 128
commands on), and the driven relay state depends only on the byte, not
on the prior state: for a mapped relay the post-state at index i is
exactly the threshold of v, whatever the prior list held. -/
theorem threshold_mapping :
    (∀ v, artnetThreshold v = decide (127 < v)) ∧
    (∀ v, e131Threshold v = decide (127 < v)) ∧
    (∀ v, ddpThreshold v = decide (127 < v)) ∧
    artnetThreshold 127 = false ∧ artnetThreshold 128 = true ∧
    e131Threshold 127 = false ∧ e131Threshold 128 = true ∧
    ddpThreshold 127 = false ∧ ddpThreshold 128 = true ∧
    (∀ (cfg : DeviceConfig) (st : List Bool) (i v : Nat),
      i < NUM_RELAYS → i < st.length →
      cfg.gpios.getD i 0 ≠ 0xFF → cfg.gpios.getD i 0 ≠ 0 →
      (setRelay cfg st i (ddpThreshold v)).getD i false = decide (127 < v)) := by
  refine ⟨fun v => rfl, fun v => rfl, fun v => rfl, rfl, rfl, rfl, rfl, rfl, rfl, ?_⟩
  intro cfg st i v hiN hil hff h0
  unfold setRelay
  rw [if_neg (by omega)]
  rw [if_neg (by rintro (h | h) <;> [exact hff h; exact h0 h])]
  simp only [List.getD, List.get?_set_eq_of_lt _ hil, Option.getD_some]
  rfl

/-- Witness for C6's last component at relay 2 of the default GPIO map
and byte value 128. -/
theorem threshold_mapping_witness :
    ((2 : Nat) < NUM_RELAYS ∧ (2 : Nat) < (List.replicate NUM_RELAYS false).length ∧
     defaultCfg.gpios.getD 2 0 ≠ 0xFF ∧ defaultCfg.gpios.getD 2 0 ≠ 0) ∧
    (setRelay defaultCfg (List.replicate NUM_RELAYS false) 2 (ddpThreshold 128)).getD 2 false =
      decide (127 < 128) :=
  ⟨⟨by decide, by decide, by decide, by decide⟩,
   threshold_mapping.2.2.2.2.2.2.2.2.2 defaultCfg (List.replicate NUM_RELAYS false) 2 128
     (by decide) (by decide) (by decide) (by decide)⟩

-- ---------- CLAIM C9 ----------

/-- Claim C9: a payload failing the signature check, or with protocol
version byte below 14, or whose little-endian opcode differs from
0x5000, yields opcode 0 or a non-ArtDMX opcode, so the tick neither
changes any relay nor counts the frame. -/
theorem artnet_malformed_noop :
    ∀ (s : SysState) (t : Nat) (buf : List Nat),
      (artnetSigOk buf = false ∨ byteAt buf 11 < 14 ∨
        byteAt buf 9 * 256 + byteAt buf 8 ≠ ARTNET_ARTDMX) →
      artNetOpCode buf ≠ ARTNET_ARTDMX ∧
      (handlePacketsStep ⟨t, some buf, [], none⟩ s).relayState = s.relayState ∧
      (handlePacketsStep ⟨t, some buf, [], none⟩ s).currentcounter = s.currentcounter := by
  intro s t buf h
  have hz : (0 : Nat) ≠ ARTNET_ARTDMX := by decide
  have hop : artNetOpCode buf ≠ ARTNET_ARTDMX := by
    unfold artNetOpCode
    by_cases hs : artnetSigOk buf = true
    · by_cases hv : 14 ≤ byteAt buf 11
      · rcases h with h | h | h
        · rw [hs] at h; exact absurd h (by decide)
        · omega
        · simpa [hs, hv] using h
      · simpa [hs, hv] using hz
    · simpa [hs] using hz
  refine ⟨hop, ?_⟩
  simp only [handlePacketsStep, if_neg hop]
  exact ⟨timeoutStep_relayState t s, timeoutStep_currentcounter t s⟩

/-- State used for the C9 witness. -/
def c9State0 : SysState := ⟨defaultCfg, List.replicate NUM_RELAYS false, 3, 3, 0, true⟩

/-- Witness for C9 at the empty payload (its first byte is not the
signature's first character). -/
theorem artnet_malformed_noop_witness :
    (artnetSigOk ([] : List Nat) = false ∨ byteAt ([] : List Nat) 11 < 14 ∨
      byteAt ([] : List Nat) 9 * 256 + byteAt ([] : List Nat) 8 ≠ ARTNET_ARTDMX) ∧
    (artNetOpCode ([] : List Nat) ≠ ARTNET_ARTDMX ∧
     (handlePacketsStep ⟨7, some [], [], none⟩ c9State0).relayState = c9State0.relayState ∧
     (handlePacketsStep ⟨7, some [], [], none⟩ c9State0).currentcounter =
       c9State0.currentcounter) :=
  ⟨Or.inl (by decide), artnet_malformed_noop c9State0 7 [] (Or.inl (by decide))⟩

-- ---------- CLAIM C10 ----------

/-- `setRelay` never touches a relay index other than the one passed. -/
lemma setRelay_getD_ne (cfg : DeviceConfig) (st : List Bool) (i k : Nat)
    (b d : Bool) (h : k ≠ i) :
    (setRelay cfg st i b).getD k d = st.getD k d := by
  simp only [setRelay]
  split
  · rfl
  · split
    · rfl
    · simp only [List.getD, List.get?_set_ne _ _ (Ne.symm h)]

/-- If the bounds check fails already at the loop's current index, the
E1.31 loop breaks at once and returns the state unchanged. -/
lemma e131Loop_break_now (cfg : DeviceConfig) (pkt : E131Packet) :
    ∀ (fuel i0 : Nat) (st : List Bool),
      pkt.property_value_count ≤ (cfg.startChan + i0) % 65536 →
      e131Loop cfg pkt fuel i0 st = st := by
  intro fuel
  cases fuel with
  | zero => intro i0 st _; simp [e131Loop]
  | succ n =>
    intro i0 st h
    simp only [e131Loop]
    rw [if_pos h]

/-- Once some index at or before `i` fails the bounds check, every relay
index at or beyond `i` keeps its prior state. -/
lemma e131Loop_break_ge (cfg : DeviceConfig) (pkt : E131Packet) :
    ∀ (fuel i0 : Nat) (st : List Bool) (i : Nat),
      i0 ≤ i →
      pkt.property_value_count ≤ (cfg.startChan + i) % 65536 →
      ∀ (k : Nat) (d : Bool), i ≤ k →
        (e131Loop cfg pkt fuel i0 st).getD k d = st.getD k d := by
  intro fuel
  induction fuel with
  | zero => intro i0 st i _ _ k d _; simp [e131Loop]
  | succ n ih =>
    intro i0 st i hi hbad k d hk
    simp only [e131Loop]
    by_cases h : pkt.property_value_count ≤ (cfg.startChan + i0) % 65536
    · rw [if_pos h]
    · rw [if_neg h]
      have hne : i0 ≠ i := by rintro rfl; exact h hbad
      rw [ih (i0 + 1) _ i (by omega) hbad k d hk]
      exact setRelay_getD_ne cfg st i0 k _ d (by omega)

/-- Claim C10: an E1.31 packet whose property_value_count is at most the
configured startChan updates no relay (the bounds check fails at i = 0,
so the prior relay states persist verbatim); more generally, once the
bounds check fails at index i, every relay at or beyond i keeps its
prior state. -/
theorem e131_short_packet_noop :
    ∀ (cfg : DeviceConfig) (pkt : E131Packet) (st : List Bool),
      (cfg.startChan < 65536 → pkt.property_value_count ≤ cfg.startChan →
        e131Apply cfg pkt st = st) ∧
      (∀ (i k : Nat) (d : Bool),
        pkt.property_value_count ≤ (cfg.startChan + i) % 65536 → i ≤ k →
        (e131Apply cfg pkt st).getD k d = st.getD k d) := by
  intro cfg pkt st
  constructor
  · intro h1 h2
    unfold e131Apply
    refine e131Loop_break_now cfg pkt NUM_RELAYS 0 st ?_
    rw [Nat.add_zero, Nat.mod_eq_of_lt h1]
    exact h2
  · intro i k d hbad hk
    unfold e131Apply
    exact e131Loop_break_ge cfg pkt NUM_RELAYS 0 st i (Nat.zero_le i) hbad k d hk

/-- Configuration used for the C10 witness: startChan 10. -/
def c10Cfg : DeviceConfig := ⟨1, 10, [26, 25, 27, 14, 33, 32, 13, 12]⟩

/-- Relay state used for the C10 witness. -/
def c10St : List Bool := [true, false, true, false, true, false, true, false]

/-- Witness for C10: a packet with property_value_count 5 against
startChan 10 leaves the relay list untouched, and the partial-frame
conjunct holds at i = 2, k = 3. -/
theorem e131_short_packet_noop_witness :
    (c10Cfg.startChan < 65536 ∧ (⟨5, [9, 8, 7, 6, 200]⟩ : E131Packet).property_value_count ≤ c10Cfg.startChan ∧
     (⟨5, [9, 8, 7, 6, 200]⟩ : E131Packet).property_value_count ≤ (c10Cfg.startChan + 2) % 65536) ∧
    e131Apply c10Cfg ⟨5, [9, 8, 7, 6, 200]⟩ c10St = c10St ∧
    (e131Apply c10Cfg ⟨5, [9, 8, 7, 6, 200]⟩ c10St).getD 3 false = c10St.getD 3 false :=
  ⟨⟨by decide, by decide, by decide⟩,
   (e131_short_packet_noop c10Cfg ⟨5, [9, 8, 7, 6, 200]⟩ c10St).1 (by decide) (by decide),
   (e131_short_packet_noop c10Cfg ⟨5, [9, 8, 7, 6, 200]⟩ c10St).2 2 3 false (by decide) (by decide)⟩

-- ---------- CLAIM C7 ----------

/-- Draining the E1.31 queue bumps the byte counter once per pulled
packet. -/
lemma e131Drain_counter :
    ∀ (q : List E131Packet) (s : SysState), s.currentcounter < 256 →
      (q.foldl e131DrainStep s).currentcounter = (s.currentcounter + q.length) % 256 := by
  intro q
  induction q with
  | nil => intro s hc; simp [Nat.mod_eq_of_lt hc]
  | cons p q ih =>
    intro s hc
    rw [List.foldl_cons, ih (e131DrainStep s p) (Nat.mod_lt _ (by norm_num))]
    change ((s.currentcounter + 1) % 256 + q.length) % 256 =
      (s.currentcounter + (q.length + 1)) % 256
    omega

/-- Claim C7: a waiting Art-Net datagram ends the tick - the result does
not depend on the E1.31 queue or the DDP socket at all; with no Art-Net
datagram, every queued E1.31 packet is processed (the counter advances
by the full queue length, with no early return) and the DDP socket is
still polled afterwards (one more increment when a datagram waits). -/
theorem tick_priority :
    ∀ (inp : TickInput) (s : SysState),
      (∀ buf, inp.artnet = some buf →
        ∀ (q : List E131Packet) (d : Option (List Nat)),
          handlePacketsStep { inp with e131q := q, ddp := d } s = handlePacketsStep inp s) ∧
      (inp.artnet = none → s.currentcounter < 256 →
        (handlePacketsStep inp s).currentcounter =
          (s.currentcounter + inp.e131q.length +
            (if inp.ddp.isSome = true then 1 else 0)) % 256) := by
  intro inp s
  obtain ⟨now, a, q0, d0⟩ := inp
  constructor
  · intro buf h q d
    obtain rfl : a = some buf := h
    rfl
  · intro h hc
    obtain rfl : a = none := h
    cases d0 with
    | none =>
      simp only [handlePacketsStep, Option.isSome_none]
      rw [e131Drain_counter q0 _ (by rw [timeoutStep_currentcounter]; exact hc),
          timeoutStep_currentcounter]
      simp
    | some buf =>
      simp only [handlePacketsStep, Option.isSome_some]
      rw [e131Drain_counter q0 _ (by rw [timeoutStep_currentcounter]; exact hc),
          timeoutStep_currentcounter]
      simp only [if_pos]
      omega

/-- An arbitrary Art-Net datagram for the C7 witness. -/
def c7Buf : List Nat := [1, 2, 3]

/-- Tick input with an Art-Net datagram waiting, a nonempty E1.31 queue
and a waiting DDP datagram. -/
def c7ArtInp : TickInput := ⟨3, some c7Buf, [⟨5, [1, 2, 3, 4, 200]⟩], some [1, 2]⟩

/-- Tick input with no Art-Net datagram, two queued E1.31 packets and a
waiting DDP datagram. -/
def c7NInp : TickInput := ⟨3, none, [⟨5, [1, 2, 3, 4, 200]⟩, ⟨3, [1, 2, 200]⟩], some [0, 1, 2]⟩

/-- State for the C7 witness (byte counter 250). -/
def c7State : SysState := ⟨defaultCfg, List.replicate NUM_RELAYS false, 250, 250, 0, true⟩

/-- Witness for C7 at concrete tick inputs with and without a waiting
Art-Net datagram. -/
theorem tick_priority_witness :
    (c7ArtInp.artnet = some c7Buf ∧ c7NInp.artnet = none ∧ c7State.currentcounter < 256) ∧
    handlePacketsStep { c7ArtInp with e131q := [], ddp := none } c7State =
      handlePacketsStep c7ArtInp c7State ∧
    (handlePacketsStep c7NInp c7State).currentcounter =
      (c7State.currentcounter + c7NInp.e131q.length +
        (if c7NInp.ddp.isSome = true then 1 else 0)) % 256 :=
  ⟨⟨rfl, rfl, by decide⟩,
   (tick_priority c7ArtInp c7State).1 c7Buf rfl [] none,
   (tick_priority c7NInp c7State).2 rfl (by decide)⟩

-- ---------- CLAIM C8 ----------

/-- 32-bit unsigned subtraction of a timestamp from itself is zero. -/
lemma u32sub_self (t : Nat) (h : t < 4294967296) : u32sub t t = 0 := by
  unfold u32sub
  omega

/-- Within one wrap period, 32-bit unsigned subtraction is ordinary
subtraction. -/
lemma u32sub_eq_sub (a b : Nat) (hb : b < 4294967296) (hab : b ≤ a)
    (h : a - b < 4294967296) : u32sub a b = a - b := by
  unfold u32sub
  omega

/-- An empty tick on a synchronised counter only runs the timeout
check: it clears the LED when more than 30000 ms have passed since
`currentDelay`, and otherwise changes nothing. -/
lemma emptyTick_step (t : Nat) (s : SysState)
    (hsync : s.currentcounter = s.previouscounter) :
    handlePacketsStep (emptyTick t) s =
      if 30000 < u32sub t s.currentDelay then { s with statusLed := false } else s := by
  have h1 : ¬ (s.currentcounter ≠ s.previouscounter) := by simp [hsync]
  simp only [handlePacketsStep, emptyTick, timeoutStep, if_neg h1, List.foldl_nil]

/-- An empty tick right after an accepted frame observes the counter
change: it records the tick's time in `currentDelay`, resynchronises
`previouscounter`, and touches nothing else (the just-reset timer
cannot be stale). -/
lemma observeTick_step (t : Nat) (s : SysState)
    (hne : s.currentcounter ≠ s.previouscounter) (ht : t < 4294967296) :
    handlePacketsStep (emptyTick t) s =
      { s with currentDelay := t, previouscounter := s.currentcounter } := by
  have hz : ¬ (30000 < u32sub t t) := by
    rw [u32sub_self t ht]
    omega
  simp only [handlePacketsStep, emptyTick, timeoutStep, if_pos hne, List.foldl_nil]
  rw [if_neg hz]

/-- Empty ticks whose times stay within the 30000 ms window leave the
state completely unchanged. -/
lemma emptyTicks_stable :
    ∀ (ts : List Nat) (s : SysState),
      s.currentcounter = s.previouscounter →
      (∀ t ∈ ts, u32sub t s.currentDelay ≤ 30000) →
      runTicks (ts.map emptyTick) s = s := by
  intro ts
  induction ts with
  | nil => intro s _ _; rfl
  | cons t ts ih =>
    intro s hs hw
    have hstep : runTicks ((t :: ts).map emptyTick) s =
        runTicks (ts.map emptyTick) (handlePacketsStep (emptyTick t) s) := rfl
    rw [hstep, emptyTick_step t s hs,
        if_neg (by have := hw t (List.mem_cons_self t ts); omega)]
    exact ih s hs (fun u hu => hw u (List.mem_cons_of_mem _ hu))

/-- Claim C8: after a frame accepted just before an empty tick at time
t1 (the tick that observes the counter increment and records t1), the
status LED stays asserted across every further empty tick whose time is
within t1 + 30000, and the first empty tick more than 30000 ms past t1
clears the LED while leaving the relay state and the counter untouched. -/
theorem liveness_window
    (s : SysState) (t1 tc : Nat) (times : List Nat)
    (hacc : s.currentcounter ≠ s.previouscounter)
    (hled : s.statusLed = true)
    (ht1 : t1 < 4294967296)
    (hwin : ∀ t ∈ times, t1 ≤ t ∧ t - t1 ≤ 30000)
    (hclear : t1 ≤ tc ∧ 30000 < tc - t1 ∧ tc - t1 < 4294967296) :
    (handlePacketsStep (emptyTick t1) s).statusLed = true ∧
    (∀ pre suf, times = pre ++ suf →
      (runTicks (pre.map emptyTick) (handlePacketsStep (emptyTick t1) s)).statusLed = true ∧
      (runTicks (pre.map emptyTick) (handlePacketsStep (emptyTick t1) s)).relayState =
        s.relayState) ∧
    (handlePacketsStep (emptyTick tc)
      (runTicks (times.map emptyTick) (handlePacketsStep (emptyTick t1) s))).statusLed = false ∧
    (handlePacketsStep (emptyTick tc)
      (runTicks (times.map emptyTick) (handlePacketsStep (emptyTick t1) s))).relayState =
      s.relayState ∧
    (handlePacketsStep (emptyTick tc)
      (runTicks (times.map emptyTick) (handlePacketsStep (emptyTick t1) s))).currentcounter =
      s.currentcounter := by
  obtain ⟨hc1, hc2, hc3⟩ := hclear
  have hobs : handlePacketsStep (emptyTick t1) s =
      { s with currentDelay := t1, previouscounter := s.currentcounter } :=
    observeTick_step t1 s hacc ht1
  set sObs : SysState := { s with currentDelay := t1, previouscounter := s.currentcounter }
    with hsObs
  have hsync : sObs.currentcounter = sObs.previouscounter := rfl
  have hstable : ∀ l : List Nat, (∀ t ∈ l, t1 ≤ t ∧ t - t1 ≤ 30000) →
      runTicks (l.map emptyTick) sObs = sObs := by
    intro l hl
    refine emptyTicks_stable l sObs rfl ?_
    intro t ht
    have h := hl t ht
    have he : u32sub t sObs.currentDelay = t - t1 := by
      show u32sub t t1 = t - t1
      exact u32sub_eq_sub t t1 ht1 h.1 (by omega)
    omega
  have hcc : 30000 < u32sub tc sObs.currentDelay := by
    have he : u32sub tc t1 = tc - t1 := u32sub_eq_sub tc t1 ht1 hc1 hc3
    show 30000 < u32sub tc t1
    omega
  refine ⟨?_, ?_, ?_, ?_, ?_⟩
  · rw [hobs]
    exact hled
  · intro pre suf hps
    have hpre : ∀ t ∈ pre, t1 ≤ t ∧ t - t1 ≤ 30000 := by
      intro t ht
      exact hwin t (by rw [hps]; exact List.mem_append_left _ ht)
    rw [hobs, hstable pre hpre]
    exact ⟨hled, rfl⟩
  · rw [hobs, hstable times hwin, emptyTick_step tc sObs hsync, if_pos hcc]
  · rw [hobs, hstable times hwin, emptyTick_step tc sObs hsync, if_pos hcc]
  · rw [hobs, hstable times hwin, emptyTick_step tc sObs hsync, if_pos hcc]

/-- State just after a tick that accepted a frame: counter ahead of
previouscounter, LED asserted. -/
def c8State : SysState :=
  ⟨defaultCfg, [true, false, true, false, true, false, true, false], 1, 0, 0, true⟩

/-- Witness for C8: observation tick at 100 ms, in-window ticks at 200
and 30100 ms, clearing tick at 30101 ms. -/
theorem liveness_window_witness :
    (c8State.currentcounter ≠ c8State.previouscounter ∧ c8State.statusLed = true ∧
     (100 : Nat) < 4294967296 ∧
     (∀ t ∈ [200, 30100], (100 : Nat) ≤ t ∧ t - 100 ≤ 30000) ∧
     ((100 : Nat) ≤ 30101 ∧ (30000 : Nat) < 30101 - 100 ∧ (30101 : Nat) - 100 < 4294967296)) ∧
    (handlePacketsStep (emptyTick 100) c8State).statusLed = true ∧
    ((runTicks ([200].map emptyTick) (handlePacketsStep (emptyTick 100) c8State)).statusLed =
        true ∧
     (runTicks ([200].map emptyTick) (handlePacketsStep (emptyTick 100) c8State)).relayState =
        c8State.relayState) ∧
    (handlePacketsStep (emptyTick 30101)
      (runTicks ([200, 30100].map emptyTick)
        (handlePacketsStep (emptyTick 100) c8State))).statusLed = false ∧
    (handlePacketsStep (emptyTick 30101)
      (runTicks ([200, 30100].map emptyTick)
        (handlePacketsStep (emptyTick 100) c8State))).relayState = c8State.relayState ∧
    (handlePacketsStep (emptyTick 30101)
      (runTicks ([200, 30100].map emptyTick)
        (handlePacketsStep (emptyTick 100) c8State))).currentcounter =
      c8State.currentcounter :=
  ⟨⟨by decide, by decide, by decide, by decide, by decide⟩,
   (liveness_window c8State 100 30101 [200, 30100] (by decide) (by decide) (by decide)
     (by decide) (by decide)).1,
   (liveness_window c8State 100 30101 [200, 30100] (by decide) (by decide) (by decide)
     (by decide) (by decide)).2.1 [200] [30100] rfl,
   (liveness_window c8State 100 30101 [200, 30100] (by decide) (by decide) (by decide)
     (by decide) (by decide)).2.2.1,
   (liveness_window c8State 100 30101 [200, 30100] (by decide) (by decide) (by decide)
     (by decide) (by decide)).2.2.2.1,
   (liveness_window c8State 100 30101 [200, 30100] (by decide) (by decide) (by decide)
     (by decide) (by decide)).2.2.2.2⟩
